import Mathlib

/-!
Verification of the quota / admission / journal / redemption core of the
server in `server.mjs`.  The JavaScript functions are shallowly embedded as
Lean functions: JS numbers carrying integer values become `Int` (or `Nat`
where the source value is a count that starts at 0 and only grows), the JS
objects used as string-keyed dictionaries become functions
`String → Option _`, asynchronous persistence writes (`saveQuotaUsers`,
`saveQuotaCodes`) are recorded in the result as the value that was handed to
the save call (`none` when no save was issued), and absent object fields
(`undefined`) become `Option` fields.
-/

namespace King7

/-- Models the JS idiom `x || 0` applied to a possibly-absent numeric field
(`undefined → 0`; note `0 || 0 = 0`, so on present integer values this is the
identity). -/
def orZero (x : Option Int) : Int := x.getD 0

/-- Models the JS idiom `x || 0` applied to a present numeric field: `0` is
falsy in JS, so `x || 0` is `0` when `x = 0` and `x` otherwise (the identity
on integers). -/
def intOrZero (x : Int) : Int := if x = 0 then 0 else x

/-- Global quota configuration (`DEFAULT_QUOTA_CONFIG` shape in
`server.mjs`): weekly limits for normal and pro users. -/
structure QuotaConfig where
  normalWeeklyLimit : Int
  proWeeklyLimit : Int
deriving Repr, DecidableEq

/-- The default configuration from `server.mjs`: normal users 5 per week,
pro users 10 per week. -/
def DEFAULT_QUOTA_CONFIG : QuotaConfig := { normalWeeklyLimit := 5, proWeeklyLimit := 10 }

/-- One per-subject ledger entry, mirroring the object stored in
`users[userId]` in `server.mjs`.  `totalUsage` is an `Option` because the
initializer in the redeem endpoint omits the field (it is `undefined` until
the first quota consumption touches it). -/
structure UserEntry where
  weeklyUsage : Int
  currentWeek : String
  extraQuota : Int
  isUnlimited : Bool
  isPro : Bool
  totalUsage : Option Int
  nickname : String
deriving Repr, DecidableEq

/-- The users collection: the JS object `users` keyed by user id. -/
abbrev QuotaUsers := String → Option UserEntry

/-- Writing `users[userId] = u` on a string-keyed JS object. -/
def setUser (users : QuotaUsers) (userId : String) (u : UserEntry) : QuotaUsers :=
  fun k => if k = userId then some u else users k

/-- The decision object returned by `checkAndConsumeQuota` (fields
`allowed`, `reason`, `remaining`, `isUnlimited`; `isPro` is present only on
some return paths, hence an `Option`). -/
structure QuotaDecision where
  allowed : Bool
  reason : String
  remaining : Int
  isUnlimited : Bool
  isPro : Option Bool
deriving Repr, DecidableEq

/-- The complete observable outcome of one `checkAndConsumeQuota` call:
the returned decision, the users object as mutated in memory, and the value
passed to `saveQuotaUsers` (`none` when no save call was issued). -/
structure QuotaOutcome where
  decision : QuotaDecision
  users : QuotaUsers
  saved : Option QuotaUsers

/-- The fresh entry created by `checkAndConsumeQuota` for an unseen user id
(`weeklyUsage: 0, currentWeek: getCurrentWeekId(), extraQuota: 0,
isUnlimited: false, isPro: false, totalUsage: 0, nickname: nickname ||
"未命名"`). -/
def initUser (nickname thisWeek : String) : UserEntry :=
  { weeklyUsage := 0, currentWeek := thisWeek, extraQuota := 0,
    isUnlimited := false, isPro := false, totalUsage := some 0,
    nickname := if nickname = "" then "未命名" else nickname }

/-- The entry `checkAndConsumeQuota` works on after the lazy-create and
nickname-update steps: the stored entry (or a fresh one) with the nickname
overwritten when a non-empty nickname was supplied. -/
def effectiveUser (users : QuotaUsers) (userId nickname thisWeek : String) : UserEntry :=
  let u0 := match users userId with
    | some u => u
    | none => initUser nickname thisWeek
  if nickname = "" then u0 else { u0 with nickname := nickname }

/-- The lazy weekly rollover: if the stored week label differs from the
current one, reset `weeklyUsage` to 0 and stamp the current label. -/
def rolledOver (thisWeek : String) (u : UserEntry) : UserEntry :=
  if u.currentWeek ≠ thisWeek then { u with currentWeek := thisWeek, weeklyUsage := 0 } else u

/-- The weekly limit chosen from the global config by tier
(`user.isPro ? quotaConfig.proWeeklyLimit : quotaConfig.normalWeeklyLimit`). -/
def weeklyLimitFor (cfg : QuotaConfig) (u : UserEntry) : Int :=
  if u.isPro then cfg.proWeeklyLimit else cfg.normalWeeklyLimit

/-- Shallow embedding of `checkAndConsumeQuota(userId, nickname)` from
`server.mjs`.  `thisWeek` stands for the value of `getCurrentWeekId()` at
the instant of the call, and `users` / `cfg` for the collections read back
from the store at the start of the call.  An empty `userId` models the JS
falsy check `if (!userId)`. -/
def checkAndConsumeQuota (userId nickname thisWeek : String)
    (users : QuotaUsers) (cfg : QuotaConfig) : QuotaOutcome :=
  if userId = "" then
    { decision := { allowed := true, reason := "anonymous", remaining := 1,
                    isUnlimited := false, isPro := none },
      users := users, saved := none }
  else
    let u1 := effectiveUser users userId nickname thisWeek
    if u1.isUnlimited then
      let u2 := { u1 with totalUsage := some (orZero u1.totalUsage + 1) }
      let users2 := setUser users userId u2
      { decision := { allowed := true, reason := "unlimited", remaining := 9999,
                      isUnlimited := true, isPro := none },
        users := users2, saved := some users2 }
    else
      let u2 := rolledOver thisWeek u1
      let weeklyLimit := weeklyLimitFor cfg u2
      if u2.weeklyUsage < weeklyLimit then
        let u3 := { u2 with weeklyUsage := u2.weeklyUsage + 1,
                            totalUsage := some (orZero u2.totalUsage + 1) }
        let users3 := setUser users userId u3
        { decision := { allowed := true, reason := "weekly_free",
                        remaining := weeklyLimit - u3.weeklyUsage,
                        isUnlimited := false, isPro := some u3.isPro },
          users := users3, saved := some users3 }
      else if u2.extraQuota > 0 then
        let u3 := { u2 with extraQuota := u2.extraQuota - 1,
                            totalUsage := some (orZero u2.totalUsage + 1) }
        let users3 := setUser users userId u3
        { decision := { allowed := true, reason := "extra_quota",
                        remaining := u3.extraQuota,
                        isUnlimited := false, isPro := some u3.isPro },
          users := users3, saved := some users3 }
      else
        let users2 := setUser users userId u2
        { decision := { allowed := false, reason := "quota_exceeded", remaining := 0,
                        isUnlimited := false, isPro := some u2.isPro },
          users := users2, saved := none }

/-! ### Usage journal (`usageLogs`, `logUserUsage`, `MAX_USAGE_LOGS`) -/

/-- Cap on the retained usage log, `MAX_USAGE_LOGS = 500` in `server.mjs`. -/
def MAX_USAGE_LOGS : Nat := 500

/-- One journal entry, mirroring the `logEntry` object built by
`logUserUsage` (operation-specific `...extra` fields omitted from the
record; they do not influence journal maintenance). -/
structure LogEntry where
  id : String
  timestamp : String
  nickname : Option String
  userId : Option String
  ip : String
  ipLocation : String
  apiType : String
  cumulativeCount : Int
  userTotalCalls : Int
  userMonthCalls : Int
deriving Repr, DecidableEq

/-- The journal-maintenance step of `logUserUsage`:
`usageLogs.push(logEntry); if (usageLogs.length > MAX_USAGE_LOGS)
usageLogs = usageLogs.slice(-MAX_USAGE_LOGS);`  (`slice(-n)` keeps the last
`n` elements). -/
def pushUsageLog (logs : List LogEntry) (e : LogEntry) : List LogEntry :=
  let logs2 := logs ++ [e]
  if MAX_USAGE_LOGS < logs2.length then logs2.drop (logs2.length - MAX_USAGE_LOGS) else logs2

/-! ### Admission gate (`acquireSlot` / `releaseSlot`) -/

/-- `MAX_CONCURRENT_REQUESTS = 2` in `server.mjs`. -/
def MAX_CONCURRENT_REQUESTS : Int := 2

/-- The module-level gate state: the `activeRequests` counter (a JS number,
so `Int` — `releaseSlot` decrements unconditionally) and `requestQueue`,
the FIFO list of suspended resolvers, identified here by numeric tokens. -/
structure GateState where
  activeRequests : Int
  requestQueue : List Nat
deriving Repr, DecidableEq

/-- The initial gate state of a fresh process. -/
def gateInit : GateState := { activeRequests := 0, requestQueue := [] }

/-- Shallow embedding of `acquireSlot()`: the synchronous body of the
promise executor.  Returns the new state and `true` when the caller's
promise resolved immediately (`activeRequests < MAX_CONCURRENT_REQUESTS`),
`false` when its resolver was pushed onto `requestQueue`. -/
def acquireSlot (s : GateState) (w : Nat) : GateState × Bool :=
  if s.activeRequests < MAX_CONCURRENT_REQUESTS then
    ({ s with activeRequests := s.activeRequests + 1 }, true)
  else
    ({ s with requestQueue := s.requestQueue ++ [w] }, false)

/-- Shallow embedding of `releaseSlot()`: decrement `activeRequests`, then,
if waiters exist, shift the head of `requestQueue`, re-increment the counter
and resolve that waiter (returned as `some w`). -/
def releaseSlot (s : GateState) : GateState × Option Nat :=
  let s1 : GateState := { s with activeRequests := s.activeRequests - 1 }
  match s1.requestQueue with
  | [] => (s1, none)
  | next :: rest =>
      ({ activeRequests := s1.activeRequests + 1, requestQueue := rest }, some next)

/-- Run a list of `acquireSlot` calls (the single-threaded JS event loop
serializes the synchronous executor bodies of concurrently issued
`acquireSlot()` promises).  Returns the final state and, per caller in
order, whether it was admitted immediately. -/
def acquireRun (s : GateState) : List Nat → GateState × List Bool
  | [] => (s, [])
  | w :: ws =>
      let (s1, b) := acquireSlot s w
      let (s2, bs) := acquireRun s1 ws
      (s2, b :: bs)

/-- An abstract gate operation: an `acquireSlot()` call by waiter `w`, or a
`releaseSlot()` call. -/
inductive GateOp where
  | acquire (w : Nat)
  | release
deriving Repr, DecidableEq

/-- Apply one gate operation to the state. -/
def applyGateOp (s : GateState) : GateOp → GateState
  | .acquire w => (acquireSlot s w).1
  | .release => (releaseSlot s).1

/-- Apply a sequence of gate operations in order. -/
def applyGateOps (s : GateState) : List GateOp → GateState
  | [] => s
  | op :: ops => applyGateOps (applyGateOp s op) ops

/-! ### Redemption codes (`/api/user/redeem`) -/

/-- One registry entry, mirroring the objects stored in `codes[code]` by the
three generation endpoints (`type` is `"quota"`, `"unlimited"` or `"pro"`;
`quota` is the grant amount, `-1` for unlimited codes, `0` for pro codes). -/
structure CodeEntry where
  quota : Int
  createTime : Int
  type : String
  remark : Option String
deriving Repr, DecidableEq

/-- The codes collection: the JS object `codes` keyed by code token. -/
abbrev CodeMap := String → Option CodeEntry

/-- Deleting `codes[code]` on a string-keyed JS object. -/
def removeCode (codes : CodeMap) (code : String) : CodeMap :=
  fun k => if k = code then none else codes k

/-- The fresh entry created by the redeem endpoint for an unseen user id
(note: unlike `checkAndConsumeQuota`'s initializer, no `totalUsage` field is
set, so the field stays absent). -/
def redeemInitUser (nickname thisWeek : String) : UserEntry :=
  { weeklyUsage := 0, currentWeek := thisWeek, extraQuota := 0,
    isUnlimited := false, isPro := false, totalUsage := none,
    nickname := if nickname = "" then "未命名" else nickname }

/-- The observable outcome of one `/api/user/redeem` request: HTTP status,
the `success` flag of the JSON body, the codes and users collections as
mutated in memory, and the values passed to `saveQuotaCodes` /
`saveQuotaUsers` (`none` when no save call was issued). -/
structure RedeemResult where
  status : Nat
  success : Bool
  codes : CodeMap
  users : QuotaUsers
  savedCodes : Option CodeMap
  savedUsers : Option QuotaUsers

/-- JS `String.prototype.toUpperCase()`: upper-case every character. -/
def jsToUpper (s : String) : String := ⟨s.data.map Char.toUpper⟩

/-- JS `String.prototype.toLowerCase()`: lower-case every character. -/
def jsToLower (s : String) : String := ⟨s.data.map Char.toLower⟩

/-- JS `String.prototype.trim()`: strip leading and trailing whitespace. -/
def jsTrim (s : String) : String :=
  ⟨((s.data.dropWhile Char.isWhitespace).reverse.dropWhile Char.isWhitespace).reverse⟩

/-- The case-insensitive lookup of the redeem endpoint: try the trimmed
input exactly, then upper-cased, then lower-cased. -/
def lookupCode (codes : CodeMap) (cleanCode : String) : Option (String × CodeEntry) :=
  match codes cleanCode with
  | some cd => some (cleanCode, cd)
  | none =>
    match codes (jsToUpper cleanCode) with
    | some cd => some (jsToUpper cleanCode, cd)
    | none =>
      match codes (jsToLower cleanCode) with
      | some cd => some (jsToLower cleanCode, cd)
      | none => none

/-- Shallow embedding of the `/api/user/redeem` handler.  Empty strings
model missing `code` / `userId` fields (the JS falsy check); `thisWeek`
stands for `getCurrentWeekId()` at the instant of the call. -/
def redeem (code userId nickname : String) (codes : CodeMap) (users : QuotaUsers)
    (thisWeek : String) : RedeemResult :=
  if code = "" ∨ userId = "" then
    { status := 400, success := false, codes := codes, users := users,
      savedCodes := none, savedUsers := none }
  else
    let cleanCode := jsTrim code
    match lookupCode codes cleanCode with
    | none =>
        { status := 404, success := false, codes := codes, users := users,
          savedCodes := none, savedUsers := none }
    | some (matchedCode, codeData) =>
        let u0 := match users userId with
          | some u => u
          | none => redeemInitUser nickname thisWeek
        if codeData.type = "unlimited" ∨ codeData.quota = -1 then
          let u1 := { u0 with isUnlimited := true }
          let codes2 := removeCode codes matchedCode
          let users2 := setUser users userId u1
          { status := 200, success := true, codes := codes2, users := users2,
            savedCodes := some codes2, savedUsers := some users2 }
        else if codeData.type = "pro" then
          let u1 := { u0 with isPro := true }
          let codes2 := removeCode codes matchedCode
          let users2 := setUser users userId u1
          { status := 200, success := true, codes := codes2, users := users2,
            savedCodes := some codes2, savedUsers := some users2 }
        else
          let u1 := { u0 with extraQuota := intOrZero u0.extraQuota + codeData.quota }
          let codes2 := removeCode codes matchedCode
          let users2 := setUser users userId u1
          { status := 200, success := true, codes := codes2, users := users2,
            savedCodes := some codes2, savedUsers := some users2 }

/-! ### Week labels (`getCurrentWeekId`) -/

/-- The character for decimal digit `d`. -/
def digitChar (d : Nat) : Char := Char.ofNat (48 + d)

/-- Big-endian decimal digit characters of `n` (the rendering performed by
the JS template literal on an integer-valued number). -/
def decChars (n : Nat) : List Char :=
  if _h : n < 10 then [digitChar n]
  else decChars (n / 10) ++ [digitChar (n % 10)]
decreasing_by exact Nat.div_lt_self (by omega) (by norm_num)

/-- Decimal string of `n`. -/
def decStr (n : Nat) : String := ⟨decChars n⟩

/-- Weekday (0 = Sunday … 6 = Saturday) of January 1 of Gregorian year `y`,
modelling `new Date(y, 0, 1).getDay()` (Gauss's formula for the proleptic
Gregorian calendar that JS `Date` uses). -/
def jan1Weekday (y : Nat) : Nat :=
  (1 + 5 * ((y - 1) % 4) + 4 * ((y - 1) % 100) + 6 * ((y - 1) % 400)) % 7

/-- The week number computed by `getCurrentWeekId`:
`Math.ceil(((now - onejan) / 86400000 + onejan.getDay() + 1) / 7)`, with
`ms = now - onejan` the milliseconds elapsed since January 1 and `d` that
day's weekday.  Over the rationals the argument of `Math.ceil` is
`(ms + 86400000 * (d + 1)) / 604800000`, so the ceiling is the rounded-up
natural division below (the embedding computes the float expression in
exact arithmetic). -/
def weekNumber (ms d : Nat) : Nat :=
  (ms + 86400000 * (d + 1) + (604800000 - 1)) / 604800000

/-- Shallow embedding of `getCurrentWeekId()`: the instant is given as the
calendar year and the milliseconds elapsed since January 1 of that year;
the result is the template string `` `${year}-W${week}` ``. -/
def getCurrentWeekId (year ms : Nat) : String :=
  decStr year ++ "-W" ++ decStr (weekNumber ms (jan1Weekday year))

/-! ### The metered endpoint (`/api/analyze/image-base64`) -/

/-- The request body fields (and forwarded-address header) the handler
reads; empty strings model absent fields, and `xff` is the trimmed first
entry of `x-forwarded-for` (empty when the header is absent). -/
structure AnalyzeRequest where
  base64 : String
  mimeType : String
  userId : String
  nickname : String
  xff : String
deriving Repr, DecidableEq

/-- `userId || req.headers["x-forwarded-for"]...　|| "anonymous_user"`. -/
def userIdentifier (r : AnalyzeRequest) : String :=
  if r.userId ≠ "" then r.userId
  else if r.xff ≠ "" then r.xff
  else "anonymous_user"

/-- The externally observable calls the handler makes, in program order. -/
inductive Ev where
  | gateAcquire
  | quotaCheck (allowed : Bool)
  | respond (status : Nat) (error : String)
  | inferenceCall
  | gateRelease
deriving Repr, DecidableEq

/-- The observable outcome of one `/api/analyze/image-base64` request: the
trace of calls it performs, the HTTP status and `error` field of the
response, and the quota outcome embedded in it. -/
structure HandlerResult where
  trace : List Ev
  status : Nat
  error : String
  quota : QuotaOutcome

/-- Shallow embedding of the `/api/analyze/image-base64` handler.  The
handler body runs `await acquireSlot()` first, then the quota check, then
validates `base64`, then performs the external inference call; the external
call, JSON repair and logging are opaque here (per the spec the inference
capability is an external collaborator), so their combined response is
abstracted as `inferStatus` / `inferError`.  `releaseSlot()` runs in the
`finally` block on every path. -/
def imageBase64Handler (r : AnalyzeRequest) (users : QuotaUsers) (cfg : QuotaConfig)
    (thisWeek : String) (inferStatus : Nat) (inferError : String) : HandlerResult :=
  let q := checkAndConsumeQuota (userIdentifier r) r.nickname thisWeek users cfg
  if q.decision.allowed = false then
    { trace := [Ev.gateAcquire, Ev.quotaCheck false, Ev.respond 403 "QUOTA_EXCEEDED",
                Ev.gateRelease],
      status := 403, error := "QUOTA_EXCEEDED", quota := q }
  else if r.base64 = "" then
    { trace := [Ev.gateAcquire, Ev.quotaCheck true, Ev.respond 400 "base64 is required",
                Ev.gateRelease],
      status := 400, error := "base64 is required", quota := q }
  else
    { trace := [Ev.gateAcquire, Ev.quotaCheck true, Ev.inferenceCall,
                Ev.respond inferStatus inferError, Ev.gateRelease],
      status := inferStatus, error := inferError, quota := q }

/-! ### Concrete scenario data used by witnesses -/

/-- A journal entry with blank payload, for concrete journal scenarios. -/
def blankLog : LogEntry :=
  { id := "a", timestamp := "t", nickname := none, userId := none, ip := "",
    ipLocation := "", apiType := "image-base64", cumulativeCount := 1,
    userTotalCalls := 1, userMonthCalls := 1 }

/-- A second, distinguishable journal entry. -/
def otherLog : LogEntry := { blankLog with id := "b", cumulativeCount := 2 }

/-- A users collection holding one normal-tier subject `u9` whose weekly
allotment for week `2026-W2` is exhausted and who has no extra quota. -/
def exhaustedUsers : QuotaUsers := fun k =>
  if k = "u9" then
    some { weeklyUsage := 5, currentWeek := "2026-W2", extraQuota := 0,
           isUnlimited := false, isPro := false, totalUsage := some 7,
           nickname := "nick" }
  else none

/-- The empty users collection (no subject seen yet). -/
def emptyUsers : QuotaUsers := fun _ => none

/-- A users collection holding one unlimited-tier subject `vip`. -/
def unlimitedUsers : QuotaUsers := fun k =>
  if k = "vip" then
    some { weeklyUsage := 3, currentWeek := "2025-W40", extraQuota := 2,
           isUnlimited := true, isPro := false, totalUsage := some 11,
           nickname := "v" }
  else none

/-- A users collection holding one normal-tier subject `u2` at the start of
week `2026-W2` with two units of extra quota. -/
def freshNormalUsers : QuotaUsers := fun k =>
  if k = "u2" then
    some { weeklyUsage := 0, currentWeek := "2026-W2", extraQuota := 2,
           isUnlimited := false, isPro := false, totalUsage := some 0,
           nickname := "n2" }
  else none

/-- A second exhausted normal-tier subject, `u9b`, used by a different
scenario. -/
def exhaustedUsersB : QuotaUsers := fun k =>
  if k = "u9b" then
    some { weeklyUsage := 5, currentWeek := "2026-W2", extraQuota := 0,
           isUnlimited := false, isPro := false, totalUsage := some 9,
           nickname := "nick" }
  else none

/-- A request by subject `u9` carrying an image payload. -/
def deniedReq : AnalyzeRequest :=
  { base64 := "img", mimeType := "image/jpeg", userId := "u9", nickname := "nick",
    xff := "" }

/-- A request by subject `u9b` carrying an image payload. -/
def deniedReqB : AnalyzeRequest :=
  { base64 := "img", mimeType := "image/jpeg", userId := "u9b", nickname := "nick",
    xff := "" }

/-- A request by subject `u1` with the `base64` field missing. -/
def noPayloadReq : AnalyzeRequest :=
  { base64 := "", mimeType := "", userId := "u1", nickname := "n", xff := "" }

/-- A registry holding exactly one grant code of amount 10. -/
def grantCodes : CodeMap := fun k =>
  if k = "PRO-ABC12XY" then
    some { quota := 10, createTime := 0, type := "quota", remark := none }
  else none

/-- Iterated quota consumption: the users collection after `n` successive
`checkAndConsumeQuota` calls for the same subject within the same week
(each call reads the collection the previous call left in the store). -/
def consumeIter (userId nickname thisWeek : String) (cfg : QuotaConfig) :
    Nat → QuotaUsers → QuotaUsers
  | 0, users => users
  | n + 1, users =>
      consumeIter userId nickname thisWeek cfg n
        ((checkAndConsumeQuota userId nickname thisWeek users cfg).users)

/-! ### Helper lemmas -/

theorem setUser_same (users : QuotaUsers) (userId : String) (u : UserEntry) :
    setUser users userId u userId = some u := by
  simp [setUser]

theorem releaseSlot_active_le (s : GateState) :
    ((releaseSlot s).1).activeRequests ≤ s.activeRequests := by
  unfold releaseSlot
  cases h : s.requestQueue <;> simp [h]

theorem acquireSlot_active_le (s : GateState) (w : Nat)
    (h : s.activeRequests ≤ MAX_CONCURRENT_REQUESTS) :
    ((acquireSlot s w).1).activeRequests ≤ MAX_CONCURRENT_REQUESTS := by
  unfold acquireSlot MAX_CONCURRENT_REQUESTS at *
  split <;> simp_all <;> omega

theorem gate_applyOps_active_le (ops : List GateOp) (s : GateState)
    (h : s.activeRequests ≤ MAX_CONCURRENT_REQUESTS) :
    (applyGateOps s ops).activeRequests ≤ MAX_CONCURRENT_REQUESTS := by
  induction ops generalizing s with
  | nil => exact h
  | cons op ops ih =>
      apply ih
      cases op with
      | acquire w => exact acquireSlot_active_le s w h
      | release => exact le_trans (releaseSlot_active_le s) h

/-! ### C7: journal capacity and FIFO eviction -/

/-- C7: the usage journal retains at most `MAX_USAGE_LOGS = 500` entries:
an append keeps the length within the cap, and an append onto a journal
already holding exactly 500 entries evicts exactly the oldest entry,
preserving the insertion order of the survivors. -/
theorem C7_usageLog_cap (logs : List LogEntry) (e : LogEntry) :
    (logs.length ≤ MAX_USAGE_LOGS → (pushUsageLog logs e).length ≤ MAX_USAGE_LOGS) ∧
    (logs.length = MAX_USAGE_LOGS → pushUsageLog logs e = logs.drop 1 ++ [e]) := by
  constructor
  · intro h
    simp only [pushUsageLog]
    split
    · rename_i hgt
      simp only [List.length_drop]
      omega
    · rename_i hle
      simp only [List.length_append, List.length_cons, List.length_nil] at hle ⊢
      omega
  · intro h
    simp only [pushUsageLog]
    have hlen : (logs ++ [e]).length = MAX_USAGE_LOGS + 1 := by
      simp [h]
    rw [if_pos (by omega), hlen]
    have h1 : MAX_USAGE_LOGS + 1 - MAX_USAGE_LOGS = 1 := by omega
    rw [h1, List.drop_append_of_le_length (by simp only [h, MAX_USAGE_LOGS]; omega)]

/-- Witness for C7: appending entry number 501 onto a 500-entry journal
drops exactly the first entry. -/
theorem C7_usageLog_cap_witness :
    (List.replicate 500 blankLog).length = MAX_USAGE_LOGS ∧
    pushUsageLog (List.replicate 500 blankLog) otherLog =
      (List.replicate 500 blankLog).drop 1 ++ [otherLog] := by
  refine ⟨by rw [List.length_replicate]; rfl, ?_⟩
  exact (C7_usageLog_cap (List.replicate 500 blankLog) otherLog).2
    (by rw [List.length_replicate]; rfl)

/-! ### C9: a denied call issues no persistence write -/

/-- C9: `checkAndConsumeQuota` persists the ledger only on allowed
decisions: a call that returns `allowed = false` (necessarily with reason
`"quota_exceeded"`) issues no `saveQuotaUsers` write, even though the
in-memory collection does hold an entry for the subject (lazily created,
nickname-updated or week-reset during the call). -/
theorem C9_denied_call_not_persisted (userId nickname thisWeek : String)
    (users : QuotaUsers) (cfg : QuotaConfig)
    (h : (checkAndConsumeQuota userId nickname thisWeek users cfg).decision.allowed = false) :
    (checkAndConsumeQuota userId nickname thisWeek users cfg).saved = none ∧
    (checkAndConsumeQuota userId nickname thisWeek users cfg).decision.reason = "quota_exceeded" ∧
    ((checkAndConsumeQuota userId nickname thisWeek users cfg).users userId).isSome = true := by
  simp only [checkAndConsumeQuota] at h ⊢
  split_ifs at h ⊢ <;> simp_all [setUser]

/-- Witness for C9: a normal user with an exhausted week and no extra quota
is denied, and no save is issued. -/
theorem C9_denied_call_not_persisted_witness :
    (checkAndConsumeQuota "u9" "nick" "2026-W2" exhaustedUsers DEFAULT_QUOTA_CONFIG).saved = none ∧
    (checkAndConsumeQuota "u9" "nick" "2026-W2" exhaustedUsers
        DEFAULT_QUOTA_CONFIG).decision.reason = "quota_exceeded" :=
  have h := C9_denied_call_not_persisted "u9" "nick" "2026-W2" exhaustedUsers
    DEFAULT_QUOTA_CONFIG (by decide)
  ⟨h.1, h.2.1⟩

/-! ### C4: admission gate -/

/-- C4: with capacity 2, five concurrently issued `acquireSlot()` calls
admit exactly the first two immediately and queue the remaining three in
FIFO arrival order; `releaseSlot()` on a state with waiters admits exactly
the head of the queue and leaves the active counter unchanged (the freed
slot is handed over, not left idle); and under any operation sequence from
the initial state the active counter never exceeds the capacity. -/
theorem C4_admission_gate :
    (acquireRun gateInit [1, 2, 3, 4, 5] =
      ({ activeRequests := 2, requestQueue := [3, 4, 5] },
        [true, true, false, false, false])) ∧
    (∀ (s : GateState) (w : Nat) (rest : List Nat), s.requestQueue = w :: rest →
      releaseSlot s = ({ activeRequests := s.activeRequests, requestQueue := rest }, some w)) ∧
    (∀ ops : List GateOp,
      (applyGateOps gateInit ops).activeRequests ≤ MAX_CONCURRENT_REQUESTS) := by
  refine ⟨by decide, ?_, ?_⟩
  · intro s w rest hq
    obtain ⟨a, q⟩ := s
    change q = w :: rest at hq
    subst hq
    simp [releaseSlot, Int.sub_add_cancel]
  · intro ops
    exact gate_applyOps_active_le ops gateInit (by decide)

/-- Witness for C4: releasing from the saturated state with queue
`[3, 4, 5]` admits waiter 3 and keeps the counter at 2; a concrete mixed
operation sequence stays within capacity. -/
theorem C4_admission_gate_witness :
    releaseSlot { activeRequests := 2, requestQueue := [3, 4, 5] } =
      ({ activeRequests := 2, requestQueue := [4, 5] }, some 3) ∧
    (applyGateOps gateInit
        [GateOp.acquire 1, GateOp.acquire 2, GateOp.acquire 3, GateOp.release,
          GateOp.acquire 4, GateOp.release]).activeRequests ≤ MAX_CONCURRENT_REQUESTS :=
  ⟨C4_admission_gate.2.1 { activeRequests := 2, requestQueue := [3, 4, 5] } 3 [4, 5] rfl,
    C4_admission_gate.2.2 _⟩

/-! ### C1: the metered-tier decision procedure -/

/-- C1: for a call with a non-empty subject id whose (possibly lazily
created) subject is not unlimited-tier, `checkAndConsumeQuota` first applies
the lazy weekly rollover (week label stamped to the current one; usage reset
to 0 when the stored label differed), then: if the rolled-over `weeklyUsage`
is below the tier's configured weekly limit, `weeklyUsage` and `totalUsage`
are incremented, the ledger is persisted and the call is allowed with
`remaining = limit - weeklyUsage` post-increment; otherwise, if
`extraQuota > 0`, `extraQuota` is decremented, `totalUsage` incremented, the
ledger persisted and the call allowed with `remaining = extraQuota`
post-decrement; otherwise the call is denied with reason
`"quota_exceeded"`, remaining 0, and no persistence write. -/
theorem C1_quota_decision (userId nickname thisWeek : String) (users : QuotaUsers)
    (cfg : QuotaConfig) (u2 : UserEntry) (L : Int) (out : QuotaOutcome)
    (hid : userId ≠ "")
    (hu : (effectiveUser users userId nickname thisWeek).isUnlimited = false)
    (hu2 : u2 = rolledOver thisWeek (effectiveUser users userId nickname thisWeek))
    (hL : L = weeklyLimitFor cfg u2)
    (hout : out = checkAndConsumeQuota userId nickname thisWeek users cfg) :
    u2.currentWeek = thisWeek ∧
    ((effectiveUser users userId nickname thisWeek).currentWeek ≠ thisWeek →
      u2.weeklyUsage = 0) ∧
    (u2.weeklyUsage < L →
      out.decision.allowed = true ∧
      out.decision.remaining = L - (u2.weeklyUsage + 1) ∧
      out.users userId = some { u2 with weeklyUsage := u2.weeklyUsage + 1,
                                         totalUsage := some (orZero u2.totalUsage + 1) } ∧
      out.saved = some out.users) ∧
    (¬ u2.weeklyUsage < L → 0 < u2.extraQuota →
      out.decision.allowed = true ∧
      out.decision.remaining = u2.extraQuota - 1 ∧
      out.users userId = some { u2 with extraQuota := u2.extraQuota - 1,
                                         totalUsage := some (orZero u2.totalUsage + 1) } ∧
      out.saved = some out.users) ∧
    (¬ u2.weeklyUsage < L → ¬ 0 < u2.extraQuota →
      out.decision = { allowed := false, reason := "quota_exceeded", remaining := 0,
                       isUnlimited := false, isPro := some u2.isPro } ∧
      out.saved = none) := by
  subst hu2 hL hout
  refine ⟨?_, ?_, ?_, ?_, ?_⟩
  · unfold rolledOver
    split
    · rfl
    · rename_i hcw
      exact not_ne_iff.mp hcw
  · intro hne
    unfold rolledOver
    rw [if_pos hne]
  · intro hlt
    unfold checkAndConsumeQuota
    rw [if_neg hid, if_neg (by simp [hu])]
    simp only
    rw [if_pos hlt]
    simp [setUser]
  · intro hge hex
    unfold checkAndConsumeQuota
    rw [if_neg hid, if_neg (by simp [hu])]
    simp only
    rw [if_neg hge, if_pos hex]
    simp [setUser]
  · intro hge hex
    unfold checkAndConsumeQuota
    rw [if_neg hid, if_neg (by simp [hu])]
    simp only
    rw [if_neg hge, if_neg hex]
    simp

/-- Witness for C1: a first-ever call by subject `u1` under the default
config goes through the weekly branch with 4 remaining. -/
theorem C1_quota_decision_witness :
    ("u1" : String) ≠ "" ∧
    (checkAndConsumeQuota "u1" "n" "2026-W2" emptyUsers DEFAULT_QUOTA_CONFIG).decision.allowed
      = true ∧
    (checkAndConsumeQuota "u1" "n" "2026-W2" emptyUsers DEFAULT_QUOTA_CONFIG).decision.remaining
      = 4 :=
  have h := C1_quota_decision "u1" "n" "2026-W2" emptyUsers DEFAULT_QUOTA_CONFIG
    (rolledOver "2026-W2" (effectiveUser emptyUsers "u1" "n" "2026-W2"))
    (weeklyLimitFor DEFAULT_QUOTA_CONFIG
      (rolledOver "2026-W2" (effectiveUser emptyUsers "u1" "n" "2026-W2")))
    (checkAndConsumeQuota "u1" "n" "2026-W2" emptyUsers DEFAULT_QUOTA_CONFIG)
    (by decide) (by decide) rfl rfl rfl
  have h3 := h.2.2.1 (by decide)
  ⟨by decide, h3.1, h3.2.1.trans (by decide)⟩

/-! ### C6: unlimited tier -/

theorem unlimited_step (userId nickname thisWeek : String) (users : QuotaUsers)
    (cfg : QuotaConfig) (u : UserEntry) (hid : userId ≠ "")
    (hget : users userId = some u) (hun : u.isUnlimited = true) :
    checkAndConsumeQuota userId nickname thisWeek users cfg =
      { decision := { allowed := true, reason := "unlimited", remaining := 9999,
                      isUnlimited := true, isPro := none },
        users := setUser users userId
          { u with totalUsage := some (orZero u.totalUsage + 1),
                   nickname := if nickname = "" then u.nickname else nickname },
        saved := some (setUser users userId
          { u with totalUsage := some (orZero u.totalUsage + 1),
                   nickname := if nickname = "" then u.nickname else nickname }) } := by
  unfold checkAndConsumeQuota effectiveUser
  rw [if_neg hid, hget]
  by_cases hn : nickname = "" <;> simp [hn, hun]

theorem unlimited_iter (userId nickname thisWeek : String) (cfg : QuotaConfig)
    (hid : userId ≠ "") :
    ∀ (n : Nat) (users : QuotaUsers) (u : UserEntry),
      users userId = some u → u.isUnlimited = true →
      ∃ v, consumeIter userId nickname thisWeek cfg n users userId = some v ∧
        v.isUnlimited = true ∧
        orZero v.totalUsage = orZero u.totalUsage + n ∧
        v.weeklyUsage = u.weeklyUsage ∧ v.extraQuota = u.extraQuota ∧
        v.currentWeek = u.currentWeek ∧ v.isPro = u.isPro := by
  intro n
  induction n with
  | zero =>
      intro users u hget hun
      exact ⟨u, hget, hun, by simp, rfl, rfl, rfl, rfl⟩
  | succ n ih =>
      intro users u hget hun
      rw [consumeIter, unlimited_step userId nickname thisWeek users cfg u hid hget hun]
      obtain ⟨v, hv, h1, h2, h3, h4, h5, h6⟩ :=
        ih (setUser users userId
            { u with totalUsage := some (orZero u.totalUsage + 1),
                     nickname := if nickname = "" then u.nickname else nickname })
          { u with totalUsage := some (orZero u.totalUsage + 1),
                   nickname := if nickname = "" then u.nickname else nickname }
          (setUser_same _ _ _) hun
      refine ⟨v, hv, h1, ?_, h3, h4, h5, h6⟩
      rw [h2]
      simp [orZero]
      omega

/-- C6: every call by an unlimited-tier subject is allowed with reason
`"unlimited"` and the sentinel remaining value 9999, the ledger is
persisted, and `totalUsage` strictly increases by 1 on each call while
`weeklyUsage`, `extraQuota` and the stored week label stay untouched —
for arbitrarily many consecutive calls. -/
theorem C6_unlimited_always_allowed (userId nickname thisWeek : String)
    (users : QuotaUsers) (cfg : QuotaConfig) (u : UserEntry)
    (hid : userId ≠ "") (hget : users userId = some u) (hun : u.isUnlimited = true) :
    ∀ n : Nat,
      (checkAndConsumeQuota userId nickname thisWeek
          (consumeIter userId nickname thisWeek cfg n users) cfg).decision =
        { allowed := true, reason := "unlimited", remaining := 9999,
          isUnlimited := true, isPro := none } ∧
      (checkAndConsumeQuota userId nickname thisWeek
          (consumeIter userId nickname thisWeek cfg n users) cfg).saved =
        some (checkAndConsumeQuota userId nickname thisWeek
          (consumeIter userId nickname thisWeek cfg n users) cfg).users ∧
      ∃ v, (checkAndConsumeQuota userId nickname thisWeek
              (consumeIter userId nickname thisWeek cfg n users) cfg).users userId = some v ∧
        v.totalUsage = some (orZero u.totalUsage + n + 1) ∧
        v.weeklyUsage = u.weeklyUsage ∧ v.extraQuota = u.extraQuota ∧
        v.currentWeek = u.currentWeek := by
  intro n
  obtain ⟨v, hv, h1, h2, h3, h4, h5, h6⟩ :=
    unlimited_iter userId nickname thisWeek cfg hid n users u hget hun
  rw [unlimited_step userId nickname thisWeek _ cfg v hid hv h1]
  refine ⟨rfl, rfl, ⟨_, setUser_same _ _ _, ?_, h3, h4, h5⟩⟩
  simp only [h2]

/-- Witness for C6: the unlimited subject `vip` is still allowed on the
third consecutive call and its lifetime counter has reached 14. -/
theorem C6_unlimited_always_allowed_witness :
    (checkAndConsumeQuota "vip" "v" "2026-W2"
        (consumeIter "vip" "v" "2026-W2" DEFAULT_QUOTA_CONFIG 2 unlimitedUsers)
        DEFAULT_QUOTA_CONFIG).decision.allowed = true ∧
    (∃ v, (checkAndConsumeQuota "vip" "v" "2026-W2"
        (consumeIter "vip" "v" "2026-W2" DEFAULT_QUOTA_CONFIG 2 unlimitedUsers)
        DEFAULT_QUOTA_CONFIG).users "vip" = some v ∧ v.totalUsage = some 14) :=
  have h := C6_unlimited_always_allowed "vip" "v" "2026-W2" unlimitedUsers
    DEFAULT_QUOTA_CONFIG
    { weeklyUsage := 3, currentWeek := "2025-W40", extraQuota := 2,
      isUnlimited := true, isPro := false, totalUsage := some 11, nickname := "v" }
    (by decide) rfl rfl 2
  have hv := h.2.2
  ⟨by rw [h.1], by
    obtain ⟨v, hv1, hv2, _⟩ := hv
    exact ⟨v, hv1, hv2⟩⟩

/-! ### C2: a normal-tier week is worth limit + extraQuota calls -/

theorem consumeIter_succ (userId nickname thisWeek : String) (cfg : QuotaConfig) :
    ∀ (n : Nat) (users : QuotaUsers),
      consumeIter userId nickname thisWeek cfg (n + 1) users =
        (checkAndConsumeQuota userId nickname thisWeek
          (consumeIter userId nickname thisWeek cfg n users) cfg).users := by
  intro n
  induction n with
  | zero => intro users; rfl
  | succ n ih =>
      intro users
      have hstep : consumeIter userId nickname thisWeek cfg (n + 2) users
          = consumeIter userId nickname thisWeek cfg (n + 1)
              ((checkAndConsumeQuota userId nickname thisWeek users cfg).users) := rfl
      rw [hstep, ih]
      rfl

theorem effectiveUser_of_get (users : QuotaUsers) (userId nickname thisWeek : String)
    (v : UserEntry) (hget : users userId = some v) :
    effectiveUser users userId nickname thisWeek =
      { v with nickname := if nickname = "" then v.nickname else nickname } := by
  unfold effectiveUser
  rw [hget]
  by_cases hn : nickname = "" <;> simp [hn]

theorem normal_week_step (userId nickname thisWeek : String) (users : QuotaUsers)
    (cfg : QuotaConfig) (v : UserEntry) (hid : userId ≠ "")
    (hget : users userId = some v) (hun : v.isUnlimited = false)
    (hpro : v.isPro = false) (hcw : v.currentWeek = thisWeek) :
    (v.weeklyUsage < cfg.normalWeeklyLimit →
      (checkAndConsumeQuota userId nickname thisWeek users cfg).decision.allowed = true ∧
      (checkAndConsumeQuota userId nickname thisWeek users cfg).users userId =
        some { v with weeklyUsage := v.weeklyUsage + 1,
                      totalUsage := some (orZero v.totalUsage + 1),
                      nickname := if nickname = "" then v.nickname else nickname }) ∧
    (¬ v.weeklyUsage < cfg.normalWeeklyLimit → 0 < v.extraQuota →
      (checkAndConsumeQuota userId nickname thisWeek users cfg).decision.allowed = true ∧
      (checkAndConsumeQuota userId nickname thisWeek users cfg).users userId =
        some { v with extraQuota := v.extraQuota - 1,
                      totalUsage := some (orZero v.totalUsage + 1),
                      nickname := if nickname = "" then v.nickname else nickname }) ∧
    (¬ v.weeklyUsage < cfg.normalWeeklyLimit → ¬ 0 < v.extraQuota →
      (checkAndConsumeQuota userId nickname thisWeek users cfg).decision.allowed = false) := by
  refine ⟨?_, ?_, ?_⟩
  · intro hlt
    unfold checkAndConsumeQuota effectiveUser rolledOver weeklyLimitFor
    rw [if_neg hid, hget]
    by_cases hn : nickname = "" <;>
      simp [hn, hun, hpro, hcw, hlt, setUser]
  · intro hge hexq
    unfold checkAndConsumeQuota effectiveUser rolledOver weeklyLimitFor
    rw [if_neg hid, hget]
    by_cases hn : nickname = "" <;>
      simp [hn, hun, hpro, hcw, hge, hexq, setUser]
  · intro hge hexq
    unfold checkAndConsumeQuota effectiveUser rolledOver weeklyLimitFor
    rw [if_neg hid, hget]
    by_cases hn : nickname = "" <;>
      simp [hn, hun, hpro, hcw, hge, hexq, setUser]

theorem normal_iter (userId nickname thisWeek : String) (cfg : QuotaConfig)
    (L k : Nat) (hL : cfg.normalWeeklyLimit = (L : Int))
    (users : QuotaUsers) (u0 : UserEntry) (hid : userId ≠ "")
    (hget : users userId = some u0)
    (h0 : u0.weeklyUsage = 0) (hcw : u0.currentWeek = thisWeek)
    (hex : u0.extraQuota = (k : Int)) (hun : u0.isUnlimited = false)
    (hpro : u0.isPro = false) :
    ∀ n, n ≤ L + k →
      ∃ v, consumeIter userId nickname thisWeek cfg n users userId = some v ∧
        v.isUnlimited = false ∧ v.isPro = false ∧ v.currentWeek = thisWeek ∧
        v.weeklyUsage = ((min n L : Nat) : Int) ∧
        v.extraQuota = ((k - (n - L) : Nat) : Int) := by
  intro n
  induction n with
  | zero =>
      intro _
      exact ⟨u0, hget, hun, hpro, hcw, by simp [h0], by simp [hex]⟩
  | succ n ih =>
      intro hn
      obtain ⟨v, hv, h1, h2, h3, h4, h5⟩ := ih (by omega)
      have hstep := normal_week_step userId nickname thisWeek _ cfg v hid hv h1 h2 h3
      rw [consumeIter_succ]
      by_cases hw : n < L
      · have hlt : v.weeklyUsage < cfg.normalWeeklyLimit := by
          rw [h4, hL]
          have : min n L = n := Nat.min_eq_left (by omega)
          rw [this]
          exact_mod_cast hw
        refine ⟨_, (hstep.1 hlt).2, h1, h2, h3, ?_, ?_⟩
        · rw [h4]
          have h6 : min n L = n := Nat.min_eq_left (by omega)
          have h7 : min (n + 1) L = n + 1 := Nat.min_eq_left (by omega)
          rw [h6, h7]
          push_cast
          ring
        · rw [h5]
          congr 1
          omega
      · have hge : ¬ v.weeklyUsage < cfg.normalWeeklyLimit := by
          rw [h4, hL]
          have : min n L = L := Nat.min_eq_right (by omega)
          rw [this]
          exact_mod_cast Nat.lt_irrefl L
        have hexq : 0 < v.extraQuota := by
          rw [h5]
          exact_mod_cast Nat.sub_pos_of_lt (by omega)
        refine ⟨_, (hstep.2.1 hge hexq).2, h1, h2, h3, ?_, ?_⟩
        · rw [h4]
          congr 1
          omega
        · rw [h5]
          have h6 : k - (n + 1 - L) = k - (n - L) - 1 := by omega
          rw [h6]
          push_cast [Nat.sub_pos_of_lt (show n - L < k by omega)]
          omega

/-- C2: a normal-tier subject that starts the week with `weeklyUsage = 0`
and `extraQuota = k` is allowed on each of the first
`normalWeeklyLimit + k` consecutive calls of that week (the first
`normalWeeklyLimit` from the weekly allotment, the next `k` from
`extraQuota`) and is denied on call number `normalWeeklyLimit + k + 1`;
with `k = 0` this is the denial of the `(limit+1)`-th call. -/
theorem C2_weekly_budget (userId nickname thisWeek : String) (users : QuotaUsers)
    (cfg : QuotaConfig) (u0 : UserEntry) (L k : Nat)
    (hid : userId ≠ "") (hL : cfg.normalWeeklyLimit = (L : Int))
    (hget : users userId = some u0) (h0 : u0.weeklyUsage = 0)
    (hcw : u0.currentWeek = thisWeek) (hex : u0.extraQuota = (k : Int))
    (hun : u0.isUnlimited = false) (hpro : u0.isPro = false) :
    (∀ i : Nat, i < L + k →
      (checkAndConsumeQuota userId nickname thisWeek
        (consumeIter userId nickname thisWeek cfg i users) cfg).decision.allowed = true) ∧
    (checkAndConsumeQuota userId nickname thisWeek
        (consumeIter userId nickname thisWeek cfg (L + k) users) cfg).decision.allowed
      = false := by
  constructor
  · intro i hi
    obtain ⟨v, hv, h1, h2, h3, h4, h5⟩ :=
      normal_iter userId nickname thisWeek cfg L k hL users u0 hid hget h0 hcw hex hun
        hpro i (by omega)
    have hstep := normal_week_step userId nickname thisWeek _ cfg v hid hv h1 h2 h3
    by_cases hw : i < L
    · refine (hstep.1 ?_).1
      rw [h4, hL, Nat.min_eq_left (by omega)]
      exact_mod_cast hw
    · refine (hstep.2.1 ?_ ?_).1
      · rw [h4, hL, Nat.min_eq_right (by omega)]
        exact_mod_cast Nat.lt_irrefl L
      · rw [h5]
        exact_mod_cast Nat.sub_pos_of_lt (by omega)
  · obtain ⟨v, hv, h1, h2, h3, h4, h5⟩ :=
      normal_iter userId nickname thisWeek cfg L k hL users u0 hid hget h0 hcw hex hun
        hpro (L + k) (by omega)
    have hstep := normal_week_step userId nickname thisWeek _ cfg v hid hv h1 h2 h3
    refine hstep.2.2 ?_ ?_
    · rw [h4, hL, Nat.min_eq_right (by omega)]
      exact_mod_cast Nat.lt_irrefl L
    · rw [h5]
      have h6 : k - (L + k - L) = 0 := by omega
      rw [h6]
      simp

/-- Witness for C2: the subject `u2` with fresh week and `extraQuota = 2`
under the default limit 5 is allowed on the first call and denied on call
number 8. -/
theorem C2_weekly_budget_witness :
    (checkAndConsumeQuota "u2" "n2" "2026-W2"
        (consumeIter "u2" "n2" "2026-W2" DEFAULT_QUOTA_CONFIG 0 freshNormalUsers)
        DEFAULT_QUOTA_CONFIG).decision.allowed = true ∧
    (checkAndConsumeQuota "u2" "n2" "2026-W2"
        (consumeIter "u2" "n2" "2026-W2" DEFAULT_QUOTA_CONFIG 7 freshNormalUsers)
        DEFAULT_QUOTA_CONFIG).decision.allowed = false :=
  have h := C2_weekly_budget "u2" "n2" "2026-W2" freshNormalUsers DEFAULT_QUOTA_CONFIG
    { weeklyUsage := 0, currentWeek := "2026-W2", extraQuota := 2,
      isUnlimited := false, isPro := false, totalUsage := some 0, nickname := "n2" }
    5 2 (by decide) (by decide) rfl rfl rfl (by decide) rfl rfl
  ⟨h.1 0 (by omega), h.2⟩

/-! ### C3: single-use grant redemption -/

/-- C3: redeeming a valid grant code of amount 10 (looked up exactly, with
no shadowing case-variants left behind) increases the subject's
`extraQuota` by exactly 10 and removes the code from the registry in the
same logical operation (both collections are saved together); a second
attempt with the same code then fails with 404 and changes nothing; and
redeeming any code absent from the registry (under all three lookup
variants) fails with 404 leaving both the registry and the ledger exactly
as they were, with no save issued. -/
theorem C3_redeem_grant (codes : CodeMap) (users : QuotaUsers)
    (c userId nickname thisWeek : String) (cd : CodeEntry)
    (hc : c ≠ "") (hid : userId ≠ "") (htrim : jsTrim c = c)
    (hcd : codes c = some cd)
    (hty : cd.type ≠ "unlimited") (hty2 : cd.type ≠ "pro") (hq : cd.quota = 10)
    (hup : codes (jsToUpper c) = none ∨ jsToUpper c = c)
    (hlo : codes (jsToLower c) = none ∨ jsToLower c = c) :
    ((redeem c userId nickname codes users thisWeek).status = 200 ∧
     (redeem c userId nickname codes users thisWeek).success = true ∧
     (redeem c userId nickname codes users thisWeek).codes c = none ∧
     (redeem c userId nickname codes users thisWeek).savedCodes =
       some (redeem c userId nickname codes users thisWeek).codes ∧
     (redeem c userId nickname codes users thisWeek).savedUsers =
       some (redeem c userId nickname codes users thisWeek).users ∧
     (∃ u1, (redeem c userId nickname codes users thisWeek).users userId = some u1 ∧
       u1.extraQuota =
         (match users userId with
          | some u => u
          | none => redeemInitUser nickname thisWeek).extraQuota + 10)) ∧
    ((redeem c userId nickname (redeem c userId nickname codes users thisWeek).codes
        (redeem c userId nickname codes users thisWeek).users thisWeek).status = 404 ∧
     (redeem c userId nickname (redeem c userId nickname codes users thisWeek).codes
        (redeem c userId nickname codes users thisWeek).users thisWeek).success = false ∧
     (redeem c userId nickname (redeem c userId nickname codes users thisWeek).codes
        (redeem c userId nickname codes users thisWeek).users thisWeek).codes =
       (redeem c userId nickname codes users thisWeek).codes ∧
     (redeem c userId nickname (redeem c userId nickname codes users thisWeek).codes
        (redeem c userId nickname codes users thisWeek).users thisWeek).users =
       (redeem c userId nickname codes users thisWeek).users ∧
     (redeem c userId nickname (redeem c userId nickname codes users thisWeek).codes
        (redeem c userId nickname codes users thisWeek).users thisWeek).savedCodes = none ∧
     (redeem c userId nickname (redeem c userId nickname codes users thisWeek).codes
        (redeem c userId nickname codes users thisWeek).users thisWeek).savedUsers = none) ∧
    (∀ (codesX : CodeMap) (usersX : QuotaUsers) (c2 : String),
      c2 ≠ "" → codesX (jsTrim c2) = none → codesX (jsToUpper (jsTrim c2)) = none →
      codesX (jsToLower (jsTrim c2)) = none →
      redeem c2 userId nickname codesX usersX thisWeek =
        { status := 404, success := false, codes := codesX, users := usersX,
          savedCodes := none, savedUsers := none }) := by
  have hq2 : cd.quota ≠ -1 := by rw [hq]; decide
  have hlook : lookupCode codes c = some (c, cd) := by
    unfold lookupCode
    rw [hcd]
  have hr1 : redeem c userId nickname codes users thisWeek =
      { status := 200, success := true,
        codes := removeCode codes c,
        users := setUser users userId
          { (match users userId with
             | some u => u
             | none => redeemInitUser nickname thisWeek) with
            extraQuota := intOrZero (match users userId with
              | some u => u
              | none => redeemInitUser nickname thisWeek).extraQuota + cd.quota },
        savedCodes := some (removeCode codes c),
        savedUsers := some (setUser users userId
          { (match users userId with
             | some u => u
             | none => redeemInitUser nickname thisWeek) with
            extraQuota := intOrZero (match users userId with
              | some u => u
              | none => redeemInitUser nickname thisWeek).extraQuota + cd.quota }) } := by
    unfold redeem
    rw [if_neg (by simp [hc, hid]), htrim]
    dsimp only
    rw [hlook]
    dsimp only
    rw [if_neg (by simp [hty, hq2]), if_neg hty2]
  refine ⟨?_, ?_, ?_⟩
  · rw [hr1]
    refine ⟨rfl, rfl, by simp [removeCode], rfl, rfl, ?_⟩
    refine ⟨_, setUser_same _ _ _, ?_⟩
    rw [hq]
    unfold intOrZero
    split <;> simp_all
  · rw [hr1]
    have hlook2 : lookupCode (removeCode codes c) c = none := by
      unfold lookupCode
      have e1 : removeCode codes c c = none := by simp [removeCode]
      rw [e1]
      have e2 : removeCode codes c (jsToUpper c) = none := by
        rcases hup with hup | hup
        · unfold removeCode
          split <;> simp [hup]
        · rw [hup]
          simp [removeCode]
      rw [e2]
      have e3 : removeCode codes c (jsToLower c) = none := by
        rcases hlo with hlo | hlo
        · unfold removeCode
          split <;> simp [hlo]
        · rw [hlo]
          simp [removeCode]
      rw [e3]
    unfold redeem
    rw [if_neg (by simp [hc, hid]), htrim]
    dsimp only
    rw [hlook2]
    exact ⟨rfl, rfl, rfl, rfl, rfl, rfl⟩
  · intro codesX usersX c2 hc2 e1 e2 e3
    have hlookX : lookupCode codesX (jsTrim c2) = none := by
      unfold lookupCode
      rw [e1, e2, e3]
    unfold redeem
    rw [if_neg (by simp [hc2, hid])]
    dsimp only
    rw [hlookX]

/-- Witness for C3: the one-code registry holding grant code `PRO-ABC12XY`
of amount 10 redeemed by the fresh subject `u3` yields `extraQuota = 10`,
and the second attempt fails with 404. -/
theorem C3_redeem_grant_witness :
    (∃ u1, (redeem "PRO-ABC12XY" "u3" "n3" grantCodes emptyUsers "2026-W2").users "u3"
        = some u1 ∧ u1.extraQuota = 0 + 10) ∧
    (redeem "PRO-ABC12XY" "u3" "n3"
        (redeem "PRO-ABC12XY" "u3" "n3" grantCodes emptyUsers "2026-W2").codes
        (redeem "PRO-ABC12XY" "u3" "n3" grantCodes emptyUsers "2026-W2").users
        "2026-W2").status = 404 :=
  have h := C3_redeem_grant grantCodes emptyUsers "PRO-ABC12XY" "u3" "n3" "2026-W2"
    { quota := 10, createTime := 0, type := "quota", remark := none }
    (by decide) (by decide) (by decide) (by decide) (by decide) (by decide) rfl
    (Or.inr (by decide)) (Or.inl (by decide))
  ⟨h.1.2.2.2.2.2, h.2.1.1⟩

/-! ### C5: ordering of quota check and admission gate at the endpoint -/

/-- Counterexample to C5: at `/api/analyze/image-base64` a request whose
subject is denied by `checkAndConsumeQuota` does invoke `acquireSlot` —
in fact the gate is acquired first, before the quota check, contradicting
the claim that a quota-denied request never reaches the gate. -/
theorem C5_counterexample :
    ((imageBase64Handler deniedReq exhaustedUsers DEFAULT_QUOTA_CONFIG
        "2026-W2" 200 "").quota.decision.allowed = false) ∧
    ((imageBase64Handler deniedReq exhaustedUsers DEFAULT_QUOTA_CONFIG
        "2026-W2" 200 "").trace.head? = some Ev.gateAcquire) ∧
    Ev.gateAcquire ∈
      (imageBase64Handler deniedReq exhaustedUsers DEFAULT_QUOTA_CONFIG
        "2026-W2" 200 "").trace := by
  refine ⟨by decide, by decide, by decide⟩

/-- C5 (amended): at `/api/analyze/image-base64` the admission gate comes
first: every request invokes `acquireSlot` before `checkAndConsumeQuota`,
and every path releases the slot at the end; in particular a quota-denied
request still acquires (and then releases) a gate slot around its 403
response. -/
theorem C5_amended_gate_before_quota (r : AnalyzeRequest) (users : QuotaUsers)
    (cfg : QuotaConfig) (thisWeek : String) (st : Nat) (er : String) :
    ((imageBase64Handler r users cfg thisWeek st er).trace.head? = some Ev.gateAcquire) ∧
    ((imageBase64Handler r users cfg thisWeek st er).trace[1]? =
      some (Ev.quotaCheck
        (imageBase64Handler r users cfg thisWeek st er).quota.decision.allowed)) ∧
    ((imageBase64Handler r users cfg thisWeek st er).trace.getLast? = some Ev.gateRelease) ∧
    ((imageBase64Handler r users cfg thisWeek st er).quota.decision.allowed = false →
      (imageBase64Handler r users cfg thisWeek st er).trace =
        [Ev.gateAcquire, Ev.quotaCheck false, Ev.respond 403 "QUOTA_EXCEEDED",
         Ev.gateRelease]) := by
  by_cases hq : (checkAndConsumeQuota (userIdentifier r) r.nickname thisWeek
      users cfg).decision.allowed = false
  · unfold imageBase64Handler
    simp only
    rw [if_pos hq]
    exact ⟨rfl, by simp [hq], rfl, fun _ => rfl⟩
  · have hq2 : (checkAndConsumeQuota (userIdentifier r) r.nickname thisWeek
        users cfg).decision.allowed = true := by
      simpa using hq
    unfold imageBase64Handler
    simp only
    rw [if_neg hq]
    split <;>
      exact ⟨rfl, by simp [hq2], rfl,
        fun hfalse => absurd (hq2.symm.trans hfalse) (by decide)⟩


/-- Witness for C5 (amended): the denied request of the counterexample
scenario, but for the saturated subject `u9b`, produces exactly the
acquire-check-respond-release trace. -/
theorem C5_amended_gate_before_quota_witness :
    (imageBase64Handler deniedReqB exhaustedUsersB DEFAULT_QUOTA_CONFIG
        "2026-W2" 200 "").trace =
      [Ev.gateAcquire, Ev.quotaCheck false, Ev.respond 403 "QUOTA_EXCEEDED",
       Ev.gateRelease] :=
  (C5_amended_gate_before_quota deniedReqB exhaustedUsersB DEFAULT_QUOTA_CONFIG
      "2026-W2" 200 "").2.2.2 (by decide)

/-! ### C10: quota is consumed before payload validation -/

/-- C10: at `/api/analyze/image-base64`, for a request that carries a
subject id but no `base64` payload, when the subject's quota check passes
(non-unlimited tier), the handler responds with the `"base64 is required"`
validation error even though one unit of quota (a weekly unit or an extra
unit) has already been consumed and the ledger persisted by the preceding
`checkAndConsumeQuota` call. -/
theorem C10_consume_before_validate (r : AnalyzeRequest) (users : QuotaUsers)
    (cfg : QuotaConfig) (thisWeek : String) (st : Nat) (er : String)
    (hid : r.userId ≠ "") (hb : r.base64 = "")
    (hu : (effectiveUser users r.userId r.nickname thisWeek).isUnlimited = false)
    (hal : (checkAndConsumeQuota r.userId r.nickname thisWeek users cfg).decision.allowed
      = true) :
    (imageBase64Handler r users cfg thisWeek st er).status = 400 ∧
    (imageBase64Handler r users cfg thisWeek st er).error = "base64 is required" ∧
    (imageBase64Handler r users cfg thisWeek st er).quota.saved =
      some (imageBase64Handler r users cfg thisWeek st er).quota.users ∧
    (∃ u1, (imageBase64Handler r users cfg thisWeek st er).quota.users r.userId = some u1 ∧
      u1.totalUsage =
        some (orZero (rolledOver thisWeek
          (effectiveUser users r.userId r.nickname thisWeek)).totalUsage + 1) ∧
      ((u1.weeklyUsage = (rolledOver thisWeek
            (effectiveUser users r.userId r.nickname thisWeek)).weeklyUsage + 1 ∧
        u1.extraQuota = (rolledOver thisWeek
            (effectiveUser users r.userId r.nickname thisWeek)).extraQuota) ∨
       (u1.weeklyUsage = (rolledOver thisWeek
            (effectiveUser users r.userId r.nickname thisWeek)).weeklyUsage ∧
        u1.extraQuota = (rolledOver thisWeek
            (effectiveUser users r.userId r.nickname thisWeek)).extraQuota - 1))) := by
  have hident : userIdentifier r = r.userId := by
    unfold userIdentifier
    rw [if_pos hid]
  unfold imageBase64Handler
  rw [hident]
  simp only
  rw [if_neg (by simp [hal]), if_pos hb]
  refine ⟨rfl, rfl, ?_⟩
  unfold checkAndConsumeQuota at hal ⊢
  rw [if_neg hid] at hal ⊢
  rw [if_neg (by simp [hu])] at hal ⊢
  simp only at hal ⊢
  by_cases hlt : (rolledOver thisWeek
      (effectiveUser users r.userId r.nickname thisWeek)).weeklyUsage <
      weeklyLimitFor cfg (rolledOver thisWeek
        (effectiveUser users r.userId r.nickname thisWeek))
  · rw [if_pos hlt]
    exact ⟨rfl, _, setUser_same _ _ _, rfl, Or.inl ⟨rfl, rfl⟩⟩
  · rw [if_neg hlt] at hal ⊢
    by_cases hex : (rolledOver thisWeek
        (effectiveUser users r.userId r.nickname thisWeek)).extraQuota > 0
    · rw [if_pos hex]
      exact ⟨rfl, _, setUser_same _ _ _, rfl, Or.inr ⟨rfl, rfl⟩⟩
    · rw [if_neg hex] at hal
      simp at hal

/-- Witness for C10: subject `u1` with full weekly quota sends a request
with no `base64`; the response is the validation error, yet the persisted
entry shows one weekly unit consumed. -/
theorem C10_consume_before_validate_witness :
    (imageBase64Handler noPayloadReq emptyUsers DEFAULT_QUOTA_CONFIG
        "2026-W2" 200 "").status = 400 ∧
    (imageBase64Handler noPayloadReq emptyUsers DEFAULT_QUOTA_CONFIG
        "2026-W2" 200 "").error = "base64 is required" :=
  have h := C10_consume_before_validate noPayloadReq emptyUsers DEFAULT_QUOTA_CONFIG
    "2026-W2" 200 "" (by decide) rfl (by decide) (by decide)
  ⟨h.1, h.2.1⟩

/-! ### C8: week labels across a year boundary -/

theorem digitChar_lt {m n : Nat} (hm : m < 10) (hn : n < 10) (h : m < n) :
    digitChar m < digitChar n := by
  interval_cases m <;> interval_cases n <;> first | omega | decide

theorem lex_append_last {a b : Char} (h : a < b) :
    ∀ p : List Char, List.Lex (· < ·) (p ++ [a]) (p ++ [b]) := by
  intro p
  induction p with
  | nil => exact List.Lex.rel h
  | cons c p ih => exact List.Lex.cons ih

theorem lex_append_eqlen :
    ∀ {as bs : List Char}, List.Lex (· < ·) as bs → as.length = bs.length →
      ∀ xs ys : List Char, List.Lex (· < ·) (as ++ xs) (bs ++ ys) := by
  intro as bs h
  induction h with
  | nil => intro hlen; simp at hlen
  | cons h ih =>
      intro hlen xs ys
      exact List.Lex.cons (ih (by simpa using hlen) xs ys)
  | rel h => intro _ xs ys; exact List.Lex.rel h

theorem decChars_low {n : Nat} (h : n < 10) : decChars n = [digitChar n] := by
  rw [decChars, dif_pos h]

theorem decChars_high {n : Nat} (h : 10 ≤ n) :
    decChars n = decChars (n / 10) ++ [digitChar (n % 10)] := by
  rw [decChars, dif_neg (by omega)]

theorem decChars_len_pos (n : Nat) : 1 ≤ (decChars n).length := by
  by_cases h : n < 10
  · rw [decChars_low h]
    simp
  · rw [decChars_high (by omega)]
    simp

theorem decChars_len2 {n : Nat} (hlo : 10 ≤ n) (hhi : n ≤ 99) :
    (decChars n).length = 2 := by
  rw [decChars_high hlo]
  simp [decChars_low (show n / 10 < 10 by omega)]

theorem decChars_len3 {n : Nat} (hlo : 100 ≤ n) (hhi : n ≤ 999) :
    (decChars n).length = 3 := by
  rw [decChars_high (by omega)]
  simp [decChars_len2 (show 10 ≤ n / 10 by omega) (show n / 10 ≤ 99 by omega)]

theorem decChars_len4 {n : Nat} (hlo : 1000 ≤ n) (hhi : n ≤ 9999) :
    (decChars n).length = 4 := by
  rw [decChars_high (by omega)]
  simp [decChars_len3 (show 100 ≤ n / 10 by omega) (show n / 10 ≤ 999 by omega)]

theorem decChars_lt :
    ∀ n m : Nat, m < n → (decChars m).length = (decChars n).length →
      List.Lex (· < ·) (decChars m) (decChars n) := by
  intro n
  induction n using Nat.strong_induction_on with
  | _ n ih =>
      intro m hmn hlen
      by_cases hn : n < 10
      · have hm : m < 10 := by omega
        rw [decChars_low hm, decChars_low hn]
        exact List.Lex.rel (digitChar_lt hm hn hmn)
      · by_cases hm : m < 10
        · exfalso
          have l1 : (decChars m).length = 1 := by rw [decChars_low hm]; rfl
          have l2 : 2 ≤ (decChars n).length := by
            rw [decChars_high (show 10 ≤ n by omega)]
            have := decChars_len_pos (n / 10)
            simp only [List.length_append, List.length_cons, List.length_nil]
            omega
          omega
        · have hm10 : 10 ≤ m := by omega
          rw [decChars_high hm10, decChars_high (show 10 ≤ n by omega)] at hlen ⊢
          simp only [List.length_append, List.length_cons, List.length_nil] at hlen
          have hlen2 : (decChars (m / 10)).length = (decChars (n / 10)).length := by omega
          rcases Nat.lt_or_ge (m / 10) (n / 10) with hq | hq
          · exact lex_append_eqlen (ih (n / 10) (by omega) (m / 10) hq hlen2) hlen2 _ _
          · have heq : m / 10 = n / 10 := by omega
            have hmod : m % 10 < n % 10 := by omega
            rw [heq]
            exact lex_append_last (digitChar_lt (by omega) (by omega) hmod) _

theorem weekId_data (y ms : Nat) :
    (getCurrentWeekId y ms).data =
      decChars y ++ '-' :: 'W' :: decChars (weekNumber ms (jan1Weekday y)) := by
  unfold getCurrentWeekId decStr
  show (decChars y ++ ['-', 'W']) ++ decChars (weekNumber ms (jan1Weekday y)) = _
  simp

/-- C8: the week-label function is a pure function of the instant (year and
milliseconds into the year), hence deterministic, and across a year
boundary within the four-digit era the labels are strictly increasing in
the string order: any label of year `y` (in particular one of its last
week) is strictly below any label of year `y + 1` (in particular one of its
first week), so a label of week 1 of year `y + 1` never equals a label of
week 53 of year `y`. -/
theorem C8_weekId_monotone (y ms1 ms2 : Nat) (h1 : 1000 ≤ y) (h2 : y ≤ 9998) :
    getCurrentWeekId y ms1 < getCurrentWeekId (y + 1) ms2 ∧
    getCurrentWeekId y ms1 ≠ getCurrentWeekId (y + 1) ms2 := by
  have hlen1 : (decChars y).length = 4 := decChars_len4 h1 (by omega)
  have hlen2 : (decChars (y + 1)).length = 4 := decChars_len4 (by omega) (by omega)
  have hlex : List.Lex (· < ·) (decChars y) (decChars (y + 1)) :=
    decChars_lt (y + 1) y (by omega) (hlen1.trans hlen2.symm)
  have hlex2 : List.Lex (· < ·) (getCurrentWeekId y ms1).data
      (getCurrentWeekId (y + 1) ms2).data := by
    rw [weekId_data, weekId_data]
    exact lex_append_eqlen hlex (hlen1.trans hlen2.symm) _ _
  have hlt : getCurrentWeekId y ms1 < getCurrentWeekId (y + 1) ms2 := by
    rw [String.lt_iff_toList_lt]
    exact hlex2
  exact ⟨hlt, ne_of_lt hlt⟩

/-- Witness for C8: an instant in the last week of 2025 (December 29) gets
a label strictly below that of an instant in the first week of 2026
(January 2). -/
theorem C8_weekId_monotone_witness :
    1000 ≤ 2025 ∧ 2025 ≤ 9998 ∧
    (getCurrentWeekId 2025 31276800000 < getCurrentWeekId 2026 86400000 ∧
     getCurrentWeekId 2025 31276800000 ≠ getCurrentWeekId 2026 86400000) :=
  ⟨by omega, by omega,
    C8_weekId_monotone 2025 31276800000 86400000 (by omega) (by omega)⟩

end King7
